import Mathlib

/-!
Shallow embedding of the in-memory API service in `src/modal_api.py`
(users / products / orders collections, the order-fulfillment
transaction `create_order`, the filtering endpoints `get_users` and
`get_products`, user creation `create_user`, the single-entity lookup
endpoints, and the synthetic data generator
`generate_random_data`).

Python machine-level details are modelled as follows: `float` prices
and totals become exact rationals `Rat` (the algorithm performs only
`+` and `*` on them, in the same order as the source), Python `int`
quantities and stock counts become `Int`, `datetime.now()` becomes an
explicit `Nat` timestamp argument, `uuid4()` ids become explicit
`String` arguments, and the `random` module becomes an injectable
stream `Nat → Nat` of draws.  `HTTPException` raise sites become a
typed error value `ApiError`; since the store `db` is a process-wide
mutable object in the source, every mutating operation here returns
the post-call store even when it fails mid-way, which is exactly the
state the Python globals are left in after the exception propagates.
-/

namespace ApiUsage

/-- The `UserRole` enum from `modal_api.py` (admin | user | guest). -/
inductive UserRole where
  | admin
  | user
  | guest
deriving DecidableEq, Repr

/-- The `User` pydantic model: `created_at` is a `Nat` timestamp. -/
structure User where
  id : String
  username : String
  email : String
  role : UserRole := UserRole.user
  created_at : Nat := 0
  is_active : Bool := true
deriving DecidableEq, Repr

/-- The `Product` pydantic model.  Note the source defaults:
`in_stock = True` together with `stock_quantity = 0`. -/
structure Product where
  id : String
  name : String
  description : Option String := none
  price : Rat
  category : String
  in_stock : Bool := true
  stock_quantity : Int := 0
  tags : List String := []
deriving DecidableEq, Repr

/-- One element of the `products` list captured inside an order
(the dict built at `modal_api.py` lines 266-272). -/
structure LineItem where
  product_id : String
  name : String
  quantity : Int
  price : Rat
  subtotal : Rat
deriving DecidableEq, Repr

/-- The `Order` pydantic model; `status` defaults to `"pending"`. -/
structure Order where
  id : String
  user_id : String
  products : List LineItem
  total_amount : Rat
  status : String := "pending"
  created_at : Nat := 0
deriving DecidableEq, Repr

/-- The response envelope `ApiResponse`; `timestamp` is the
`datetime.now()` value captured by `create_api_response`. -/
structure ApiResponse (α : Type) where
  success : Bool
  message : String
  data : α
  timestamp : Nat
deriving DecidableEq, Repr

/-- Typed counterpart of the `HTTPException` raise sites. -/
inductive ApiError where
  /-- HTTP 404 "User not found" (`get_user` and `create_order`). -/
  | userNotFound
  /-- HTTP 404 "Product ... not found" with the offending id (`create_order`). -/
  | productNotFound (product_id : String)
  /-- HTTP 404 with a plain detail string (`get_product`, `get_order`). -/
  | notFound (detail : String)
  /-- HTTP 400 "Insufficient stock for ..." with the product name (`create_order`). -/
  | insufficientStock (name : String)
  /-- HTTP 400 duplicate username / email (`create_user`). -/
  | conflict (detail : String)
deriving DecidableEq, Repr

/-- The `SimulatedDatabase` class: the three collections. -/
structure Db where
  users : List User
  products : List Product
  orders : List Order
deriving DecidableEq, Repr

/-! ### Seeded sample data (`_generate_sample_users` / `_generate_sample_products`) -/

def aliceUser : User :=
  { id := "user_001", username := "alice_w", email := "alice@example.com",
    role := UserRole.admin }

def bobUser : User :=
  { id := "user_002", username := "bob_smith", email := "bob@example.com",
    role := UserRole.user }

def charlieUser : User :=
  { id := "user_003", username := "charlie_b", email := "charlie@example.com",
    role := UserRole.guest }

def sampleUsers : List User := [aliceUser, bobUser, charlieUser]

def headphonesProduct : Product :=
  { id := "prod_001", name := "Wireless Headphones",
    description := some "Noise-cancelling wireless headphones",
    price := 19999/100, category := "Electronics",
    stock_quantity := 50, tags := ["audio", "wireless", "tech"] }

def coffeeMakerProduct : Product :=
  { id := "prod_002", name := "Coffee Maker",
    description := some "Programmable drip coffee maker",
    price := 8999/100, category := "Home & Kitchen",
    stock_quantity := 25, tags := ["kitchen", "appliance", "coffee"] }

def yogaMatProduct : Product :=
  { id := "prod_003", name := "Yoga Mat",
    description := some "Eco-friendly non-slip yoga mat",
    price := 2999/100, category := "Fitness",
    stock_quantity := 100, tags := ["fitness", "yoga", "exercise"] }

def sampleProducts : List Product :=
  [headphonesProduct, coffeeMakerProduct, yogaMatProduct]

/-- The store as built by `SimulatedDatabase.__init__`. -/
def initDb : Db :=
  { users := sampleUsers, products := sampleProducts, orders := [] }

/-! ### Lookups -/

/-- Source: `next((u for u in db.users if u.id == user_id), None)`. -/
def findUser (db : Db) (uid : String) : Option User :=
  db.users.find? (fun u => u.id == uid)

/-- Source: `next((p for p in products if p.id == product_id), None)`. -/
def findProduct (ps : List Product) (pid : String) : Option Product :=
  ps.find? (fun p => p.id == pid)

/-- Source: `next((o for o in db.orders if o.id == order_id), None)`. -/
def findOrder (db : Db) (oid : String) : Option Order :=
  db.orders.find? (fun o => o.id == oid)

/-! ### `create_user` (modal_api.py lines 171-187) -/

/-- Endpoint `create_user`: reject a duplicate username, then a duplicate email
(case-sensitive `==` on both), otherwise append the user. -/
def createUser (db : Db) (user : User) : Db × Except ApiError User :=
  if db.users.any (fun u => u.username == user.username) then
    (db, Except.error (ApiError.conflict "Username already exists"))
  else if db.users.any (fun u => u.email == user.email) then
    (db, Except.error (ApiError.conflict "Email already exists"))
  else
    ({ db with users := db.users ++ [user] }, Except.ok user)

/-- Python `str.lower()` (per-character lowercasing), written with
structural recursion so that it evaluates. -/
def strLower (s : String) : String := String.mk (s.data.map Char.toLower)

/-! ### `get_users` filtering (modal_api.py lines 134-155) -/

/-- The list computed by `get_users`: optional role filter, then the
`active_only` filter, then truncation to `limit`. -/
def getUsers (db : Db) (role : Option UserRole) (active_only : Bool)
    (limit : Nat) : List User :=
  let users : List User := db.users
  let users : List User :=
    match role with
    | some r => users.filter (fun u => u.role == r)
    | none => users
  let users : List User := if active_only then users.filter (fun u => u.is_active) else users
  users.take limit

/-! ### `get_products` filtering (modal_api.py lines 189-219) -/

/-- The query parameters of `get_products`.  `in_stock` defaults to
`True` in the source. -/
structure ProductFilter where
  category : Option String := none
  min_price : Option Rat := none
  max_price : Option Rat := none
  in_stock : Bool := true
  tag : Option String := none
deriving DecidableEq, Repr

/-- The list computed by `get_products`: five sequential filters.
`if category:` and `if tag:` are Python truthiness tests, so a
supplied empty string skips the corresponding filter exactly like an
absent parameter; `min_price` / `max_price` use `is not None`. -/
def getProducts (db : Db) (f : ProductFilter) : List Product :=
  let ps : List Product := db.products
  let ps : List Product :=
    match f.category with
    | some c =>
        if c = "" then ps
        else ps.filter (fun p => strLower p.category == strLower c)
    | none => ps
  let ps : List Product :=
    match f.min_price with
    | some m => ps.filter (fun p => decide (m ≤ p.price))
    | none => ps
  let ps : List Product :=
    match f.max_price with
    | some m => ps.filter (fun p => decide (p.price ≤ m))
    | none => ps
  let ps : List Product :=
    if f.in_stock then
      ps.filter (fun p => p.in_stock && decide (0 < p.stock_quantity))
    else ps
  let ps : List Product :=
    match f.tag with
    | some t =>
        if t = "" then ps
        else ps.filter (fun p => (p.tags.map strLower).contains (strLower t))
    | none => ps
  ps

/-! ### `create_order` (modal_api.py lines 235-290) -/

/-- One element of the request's `products` list; `quantity` is
optional and `item.get("quantity", 1)` defaults it to 1. -/
structure OrderItem where
  product_id : String
  quantity : Option Int := none
deriving DecidableEq, Repr

/-- The parsed order payload; `order_data.get("products", [])` makes
an absent list empty. -/
structure OrderRequest where
  user_id : String
  products : List OrderItem := []
deriving DecidableEq, Repr

/-- The in-place stock mutation of `create_order`:
`product.stock_quantity -= quantity` followed by
`if product.stock_quantity == 0: product.in_stock = False`. -/
def decrementProduct (p : Product) (q : Int) : Product :=
  { p with
    stock_quantity := p.stock_quantity - q,
    in_stock := if p.stock_quantity - q = 0 then false else p.in_stock }

/-- Replace the first product whose id matches `pid` — the object the
source's `next(...)` found and mutated in place. -/
def replaceFirst : List Product → String → Product → List Product
  | [], _, _ => []
  | p :: ps, pid, p' =>
      if p.id == pid then p' :: ps else p :: replaceFirst ps pid p'

/-- The `for item in order_data.get("products", [])` loop.  Returns
the products list as the loop leaves it (decrements applied up to the
failure point are kept) together with either the collected line items
and the running total, or the first typed error. -/
def processItems :
    List Product → List OrderItem →
      List Product × Except ApiError (List LineItem × Rat)
  | ps, [] => (ps, Except.ok ([], 0))
  | ps, item :: rest =>
      let pid := item.product_id
      let q := item.quantity.getD 1
      match findProduct ps pid with
      | none => (ps, Except.error (ApiError.productNotFound pid))
      | some p =>
          if p.stock_quantity < q then
            (ps, Except.error (ApiError.insufficientStock p.name))
          else
            let p' := decrementProduct p q
            let li : LineItem :=
              { product_id := pid, name := p.name, quantity := q,
                price := p.price, subtotal := p.price * (q : Rat) }
            match processItems (replaceFirst ps pid p') rest with
            | (ps', Except.ok (lis, t)) => (ps', Except.ok (li :: lis, li.subtotal + t))
            | (ps', Except.error e) => (ps', Except.error e)

/-- Endpoint `create_order`: resolve the user, run the item loop, then append
an order with status `"confirmed"`.  On failure the returned store
keeps whatever decrements the loop already applied (the Python
exception propagates past the mutated globals). -/
def createOrder (db : Db) (oid : String) (req : OrderRequest) :
    Db × Except ApiError Order :=
  match findUser db req.user_id with
  | none => (db, Except.error ApiError.userNotFound)
  | some user =>
      match processItems db.products req.products with
      | (ps', Except.error e) =>
          ({ db with products := ps' }, Except.error e)
      | (ps', Except.ok (lis, total)) =>
          let order : Order :=
            { id := oid, user_id := user.id, products := lis,
              total_amount := total, status := "confirmed" }
          ({ db with products := ps', orders := db.orders ++ [order] },
           Except.ok order)

/-! ### Response-envelope endpoints (for the read-only operations) -/

/-- Envelope `create_api_response` applied at `get_users`: the envelope carries
the filtered list and the `datetime.now()` timestamp `t`. -/
def getUsersEndpoint (db : Db) (role : Option UserRole) (active_only : Bool)
    (limit : Nat) (t : Nat) : ApiResponse (List User) :=
  let us := getUsers db role active_only limit
  { success := true,
    message := "Retrieved " ++ toString us.length ++ " users",
    data := us, timestamp := t }

/-- Envelope `create_api_response` applied at `get_products`. -/
def getProductsEndpoint (db : Db) (f : ProductFilter) (t : Nat) :
    ApiResponse (List Product) :=
  let ps := getProducts db f
  { success := true,
    message := "Retrieved " ++ toString ps.length ++ " products",
    data := ps, timestamp := t }

/-- Endpoint `get_user`: 404 when the id is unresolved, else the envelope. -/
def getUserEndpoint (db : Db) (uid : String) (t : Nat) :
    Except ApiError (ApiResponse User) :=
  match findUser db uid with
  | none => Except.error ApiError.userNotFound
  | some u =>
      Except.ok { success := true, message := "User retrieved successfully",
                  data := u, timestamp := t }

/-- Endpoint `get_product`: 404 "Product not found", else the envelope. -/
def getProductEndpoint (db : Db) (pid : String) (t : Nat) :
    Except ApiError (ApiResponse Product) :=
  match findProduct db.products pid with
  | none => Except.error (ApiError.notFound "Product not found")
  | some p =>
      Except.ok { success := true, message := "Product retrieved successfully",
                  data := p, timestamp := t }

/-- Endpoint `get_order`: 404 "Order not found", else the envelope. -/
def getOrderEndpoint (db : Db) (oid : String) (t : Nat) :
    Except ApiError (ApiResponse Order) :=
  match findOrder db oid with
  | none => Except.error (ApiError.notFound "Order not found")
  | some o =>
      Except.ok { success := true, message := "Order retrieved successfully",
                  data := o, timestamp := t }

/-- Everything in an `ApiResponse` except the envelope timestamp. -/
def stripTime {α : Type} (r : ApiResponse α) : Bool × String × α :=
  (r.success, r.message, r.data)

/-! ### `generate_random_data` (modal_api.py lines 326-374) -/

/-- Model of `random.choice(l)` with an injected draw `k` (`d` is unreachable
padding for the fixed non-empty vocabularies). -/
def choiceFrom {α : Type} (l : List α) (k : Nat) (d : α) : α :=
  l.getD (k % l.length) d

def firstNamesVocab : List String :=
  ["John", "Jane", "Alex", "Emily", "Chris", "Sarah", "Mike", "Lisa"]

def lastNamesVocab : List String :=
  ["Smith", "Johnson", "Williams", "Brown", "Jones", "Davis", "Miller"]

def domainsVocab : List String := ["example.com", "test.org", "demo.net"]

def categoriesVocab : List String :=
  ["Electronics", "Books", "Clothing", "Home", "Sports", "Toys"]

def adjectivesVocab : List String :=
  ["Premium", "Standard", "Deluxe", "Basic", "Advanced", "Professional"]

def nounsVocab : List String :=
  ["Widget", "Gadget", "Device", "Tool", "Equipment", "Accessory"]

def genTagsVocab : List String := ["new", "sale", "featured", "bestseller"]

/-- One iteration of the `data_type == "users"` loop; the five
`random` draws of iteration `i` come from the stream `s`. -/
def mkRandomUser (s : Nat → Nat) (i : Nat) : User :=
  let first := choiceFrom firstNamesVocab (s (5 * i)) ""
  let last := choiceFrom lastNamesVocab (s (5 * i + 1)) ""
  let username := strLower first ++ "_" ++ strLower last
  let email := username ++ "@" ++ choiceFrom domainsVocab (s (5 * i + 2)) ""
  { id := "", username := username, email := email,
    role := choiceFrom [UserRole.admin, UserRole.user, UserRole.guest]
      (s (5 * i + 3)) UserRole.user,
    is_active := choiceFrom [true, false] (s (5 * i + 4)) true }

/-- Model of `round(random.uniform(10, 500), 2)` as a two-decimal rational in
`[10, 500]` driven by draw `k`. -/
def randomPrice (k : Nat) : Rat := ((k % 49001 + 1000 : Nat) : Rat) / 100

/-- One iteration of the `data_type == "products"` loop; the seven
`random` draws of iteration `i` come from the stream `s`.  The source
recomputes `in_stock` from the drawn `stock_quantity` right after
construction. -/
def mkRandomProduct (s : Nat → Nat) (i : Nat) : Product :=
  let adj := choiceFrom adjectivesVocab (s (7 * i)) ""
  let noun := choiceFrom nounsVocab (s (7 * i + 1)) ""
  let descAdj := choiceFrom adjectivesVocab (s (7 * i + 2)) ""
  let stock : Int := ((s (7 * i + 5)) % 201 : Nat)
  { id := "", name := adj ++ " " ++ noun,
    description := some ("Description for " ++ strLower descAdj ++ " product"),
    price := randomPrice (s (7 * i + 3)),
    category := choiceFrom categoriesVocab (s (7 * i + 4)) "",
    stock_quantity := stock,
    in_stock := decide (0 < stock),
    tags := [choiceFrom genTagsVocab (s (7 * i + 6)) ""] }

/-- A generated record (the source returns plain dicts). -/
inductive GenRecord where
  | userRec (u : User)
  | productRec (p : Product)
deriving DecidableEq, Repr

/-- The `data_type` values accepted by the endpoint's query-parameter
regex `^(users|products|orders)$`. -/
def validDataType (dt : String) : Bool :=
  dt == "users" || dt == "products" || dt == "orders"

/-- The `random_data` list built by `generate_random_data`: the
`users` and `products` branches fill it, any other accepted
`data_type` (namely `"orders"`) leaves it empty. -/
def generateRandomData (s : Nat → Nat) (data_type : String) (count : Nat) :
    List GenRecord :=
  if data_type = "users" then
    (List.range count).map (fun i => GenRecord.userRec (mkRandomUser s i))
  else if data_type = "products" then
    (List.range count).map (fun i => GenRecord.productRec (mkRandomProduct s i))
  else []

/-- The whole endpoint: it only reads `db` implicitly (in fact not at
all) and returns it unchanged next to the envelope. -/
def generateRandomDataEndpoint (db : Db) (s : Nat → Nat) (data_type : String)
    (count : Nat) (t : Nat) : Db × ApiResponse (List GenRecord) :=
  (db,
   { success := true,
     message := "Generated " ++ toString count ++ " random " ++ data_type,
     data := generateRandomData s data_type count, timestamp := t })

/-! ### Spec-side predicates for the product filter (claim C6) -/

/-- The product predicate exactly as the spec words it: every
*supplied* parameter contributes its conjunct — a supplied empty
string is still a supplied category / tag predicate. -/
def productMatchesSpec (f : ProductFilter) (p : Product) : Bool :=
  (match f.category with
   | some c => strLower p.category == strLower c
   | none => true) &&
  (match f.min_price with
   | some m => decide (m ≤ p.price)
   | none => true) &&
  (match f.max_price with
   | some m => decide (p.price ≤ m)
   | none => true) &&
  (if f.in_stock then p.in_stock && decide (0 < p.stock_quantity) else true) &&
  (match f.tag with
   | some t => (p.tags.map strLower).contains (strLower t)
   | none => true)

/-- Category conjunct as the code applies it: an empty-string
category is no constraint (Python truthiness). -/
def catOk (cat : Option String) (p : Product) : Bool :=
  match cat with
  | some c => (c == "") || strLower p.category == strLower c
  | none => true

def minOk (mn : Option Rat) (p : Product) : Bool :=
  match mn with
  | some m => decide (m ≤ p.price)
  | none => true

def maxOk (mx : Option Rat) (p : Product) : Bool :=
  match mx with
  | some m => decide (p.price ≤ m)
  | none => true

def stockOk (b : Bool) (p : Product) : Bool :=
  if b then p.in_stock && decide (0 < p.stock_quantity) else true

/-- Tag conjunct as the code applies it: an empty-string tag is no
constraint (Python truthiness). -/
def tagOk (tg : Option String) (p : Product) : Bool :=
  match tg with
  | some t => (t == "") || (p.tags.map strLower).contains (strLower t)
  | none => true

/-- The conjunction the code actually implements: identical to
`productMatchesSpec` except that an empty-string category or tag is
treated as absent (Python truthiness). -/
def productMatchesCode (f : ProductFilter) (p : Product) : Bool :=
  catOk f.category p && minOk f.min_price p && maxOk f.max_price p &&
    stockOk f.in_stock p && tagOk f.tag p

/-- The stock invariant claimed in the spec. -/
def stockInvariant (p : Product) : Prop :=
  p.in_stock = true ↔ 0 < p.stock_quantity

instance (p : Product) : Decidable (stockInvariant p) := by
  unfold stockInvariant; infer_instance

end ApiUsage

deriving instance DecidableEq for Except

attribute [local semireducible] Rat.mul Rat.add Rat.inv Rat.sub

namespace ApiUsage

/-! ### Claim C4: unknown user -/

/-- C4: when `user_id` resolves to no stored user, `create_order`
fails with the user-not-found error and returns the store unchanged —
no product stock or `in_stock` flag is touched and no order is
appended. -/
theorem create_order_unknown_user (db : Db) (oid : String) (req : OrderRequest)
    (hu : findUser db req.user_id = none) :
    createOrder db oid req = (db, Except.error ApiError.userNotFound) := by
  simp [createOrder, hu]

theorem create_order_unknown_user_witness :
    findUser initDb "user_999" = none ∧
    createOrder initDb "oW4" ⟨"user_999", [⟨"prod_001", some 1⟩]⟩ =
      (initDb, Except.error ApiError.userNotFound) :=
  ⟨by decide,
   create_order_unknown_user initDb "oW4" ⟨"user_999", [⟨"prod_001", some 1⟩]⟩
     (by decide)⟩

/-! ### Claim C9: empty item list -/

/-- C9: `create_order` with an existing user and an empty (or absent,
which parses to empty) `products` list succeeds, appends an order with
no line items, `total_amount = 0` and status `"confirmed"`, and leaves
every product untouched. -/
theorem create_order_empty_items (db : Db) (oid uid : String) (user : User)
    (hu : findUser db uid = some user) :
    createOrder db oid ⟨uid, []⟩ =
      ({ db with orders := db.orders ++
          [{ id := oid, user_id := user.id, products := [],
             total_amount := 0, status := "confirmed" }] },
       Except.ok { id := oid, user_id := user.id, products := [],
                   total_amount := 0, status := "confirmed" }) := by
  simp [createOrder, processItems, hu]

theorem create_order_empty_items_witness :
    findUser initDb "user_001" = some aliceUser ∧
    createOrder initDb "oW9" ⟨"user_001", []⟩ =
      ({ initDb with orders :=
          [{ id := "oW9", user_id := "user_001", products := [],
             total_amount := 0, status := "confirmed" }] },
       Except.ok { id := "oW9", user_id := "user_001", products := [],
                   total_amount := 0, status := "confirmed" }) :=
  ⟨by decide, create_order_empty_items initDb "oW9" "user_001" aliceUser (by decide)⟩

/-! ### Claim C5: duplicate username / email on user creation -/

/-- C5: `create_user` fails with a `Conflict` error and leaves the
users collection unchanged whenever some stored user has exactly the
same username or exactly the same email (case-sensitive `==`);
otherwise it appends the user and returns the stored record. -/
theorem create_user_conflict_or_append (db : Db) (user : User) :
    ((∃ u ∈ db.users, u.username = user.username ∨ u.email = user.email) →
      ∃ d, createUser db user = (db, Except.error (ApiError.conflict d))) ∧
    ((∀ u ∈ db.users, u.username ≠ user.username ∧ u.email ≠ user.email) →
      createUser db user =
        ({ db with users := db.users ++ [user] }, Except.ok user)) := by
  constructor
  · intro hex
    by_cases h1 : db.users.any (fun u => u.username == user.username)
    · exact ⟨"Username already exists", by simp [createUser, h1]⟩
    · by_cases h2 : db.users.any (fun u => u.email == user.email)
      · exact ⟨"Email already exists", by simp [createUser, h1, h2]⟩
      · exfalso
        rcases hex with ⟨u, hu, h | h⟩
        · exact h1 (List.any_eq_true.mpr ⟨u, hu, by simp [h]⟩)
        · exact h2 (List.any_eq_true.mpr ⟨u, hu, by simp [h]⟩)
  · intro hall
    have h1 : db.users.any (fun u => u.username == user.username) = false := by
      simp only [List.any_eq_false]
      intro u hu
      simp [(hall u hu).1]
    have h2 : db.users.any (fun u => u.email == user.email) = false := by
      simp only [List.any_eq_false]
      intro u hu
      simp [(hall u hu).2]
    simp [createUser, h1, h2]

theorem create_user_conflict_or_append_witness :
    (∃ d, createUser initDb
        { id := "user_100", username := "alice_w", email := "fresh@example.com" } =
      (initDb, Except.error (ApiError.conflict d))) ∧
    createUser initDb
        { id := "user_101", username := "dora_x", email := "dora@example.com" } =
      ({ initDb with users := sampleUsers ++
          [{ id := "user_101", username := "dora_x", email := "dora@example.com" }] },
       Except.ok { id := "user_101", username := "dora_x", email := "dora@example.com" }) :=
  ⟨(create_user_conflict_or_append initDb
      { id := "user_100", username := "alice_w", email := "fresh@example.com" }).1
      ⟨aliceUser, by decide, by decide⟩,
   (create_user_conflict_or_append initDb
      { id := "user_101", username := "dora_x", email := "dora@example.com" }).2
      (by decide)⟩

/-! ### Claim C7: synthetic generator -/

/-- C7 counterexample: `"orders"` passes the endpoint's `data_type`
regex and `count = 5` is within bounds, yet the generator returns an
empty list instead of 5 records. -/
theorem generator_orders_counterexample :
    validDataType "orders" = true ∧ 1 ≤ 5 ∧ 5 ≤ 20 ∧
    (generateRandomData (fun _ => 0) "orders" 5).length = 0 := by
  constructor
  · decide
  · exact ⟨by decide, by decide, rfl⟩

/-- C7 (amended): for every `data_type`, count, draw stream and store
the endpoint returns the store unchanged; for `data_type` `"users"` or
`"products"` and any in-bounds count it returns exactly `count`
records; and for `data_type` `"orders"` — which also passes the
validation regex — it returns an empty record list, whatever the count
and the stream. -/
theorem generator_count_and_store (db : Db) (s : Nat → Nat) (dt : String)
    (count t : Nat) :
    (generateRandomDataEndpoint db s dt count t).1 = db ∧
    (1 ≤ count → count ≤ 20 → dt = "users" ∨ dt = "products" →
      (generateRandomDataEndpoint db s dt count t).2.data.length = count) ∧
    (dt = "orders" →
      (generateRandomDataEndpoint db s dt count t).2.data = []) := by
  refine ⟨rfl, ?_, ?_⟩
  · intro h1 h2 hdt
    rcases hdt with rfl | rfl <;>
      simp [generateRandomDataEndpoint, generateRandomData]
  · intro hdt
    subst hdt
    simp [generateRandomDataEndpoint, generateRandomData]

theorem generator_count_and_store_witness :
    ((generateRandomDataEndpoint initDb (fun _ => 0) "users" 5 0).1 = initDb ∧
     (generateRandomDataEndpoint initDb (fun _ => 0) "users" 5 0).2.data.length
       = 5) ∧
    ((generateRandomDataEndpoint initDb (fun _ => 0) "orders" 7 0).1 = initDb ∧
     (generateRandomDataEndpoint initDb (fun _ => 0) "orders" 7 0).2.data
       = []) :=
  ⟨⟨(generator_count_and_store initDb (fun _ => 0) "users" 5 0).1,
    (generator_count_and_store initDb (fun _ => 0) "users" 5 0).2.1
      (by decide) (by decide) (Or.inl rfl)⟩,
   ⟨(generator_count_and_store initDb (fun _ => 0) "orders" 7 0).1,
    (generator_count_and_store initDb (fun _ => 0) "orders" 7 0).2.2 rfl⟩⟩

/-! ### Claim C8: idempotent reads -/

/-- C8 counterexample: two `get_users` calls with identical arguments
against the identical store differ, because the response envelope
stamps `datetime.now()` — here timestamps 0 and 1. -/
theorem idempotent_reads_counterexample :
    getUsersEndpoint initDb none true 10 0 ≠ getUsersEndpoint initDb none true 10 1 := by
  decide

/-- C8 (amended): every read-only operation — user listing, product
listing and the three single-entity lookups — returns results that
agree in success flag, message, and data payload across two calls with
the same arguments and store state; only the envelope timestamp (the
current time at each call) can differ. -/
theorem read_endpoints_time_invariant (db : Db) (role : Option UserRole)
    (active_only : Bool) (limit : Nat) (f : ProductFilter)
    (uid pid oid : String) (t₁ t₂ : Nat) :
    stripTime (getUsersEndpoint db role active_only limit t₁) =
      stripTime (getUsersEndpoint db role active_only limit t₂) ∧
    stripTime (getProductsEndpoint db f t₁) =
      stripTime (getProductsEndpoint db f t₂) ∧
    (getUserEndpoint db uid t₁).map stripTime =
      (getUserEndpoint db uid t₂).map stripTime ∧
    (getProductEndpoint db pid t₁).map stripTime =
      (getProductEndpoint db pid t₂).map stripTime ∧
    (getOrderEndpoint db oid t₁).map stripTime =
      (getOrderEndpoint db oid t₂).map stripTime := by
  refine ⟨rfl, rfl, ?_, ?_, ?_⟩
  · unfold getUserEndpoint
    cases findUser db uid <;> rfl
  · unfold getProductEndpoint
    cases findProduct db.products pid <;> rfl
  · unfold getOrderEndpoint
    cases findOrder db oid <;> rfl

/-! ### Step lemmas for the `create_order` item loop -/

theorem processItems_cons_notFound {ps : List Product} {item : OrderItem}
    (rest : List OrderItem) (h : findProduct ps item.product_id = none) :
    processItems ps (item :: rest) =
      (ps, Except.error (ApiError.productNotFound item.product_id)) := by
  simp [processItems, h]

theorem processItems_cons_insufficient {ps : List Product} {item : OrderItem}
    {p : Product} (rest : List OrderItem)
    (h : findProduct ps item.product_id = some p)
    (hq : p.stock_quantity < item.quantity.getD 1) :
    processItems ps (item :: rest) =
      (ps, Except.error (ApiError.insufficientStock p.name)) := by
  simp [processItems, h, hq]

theorem processItems_cons_ok {ps : List Product} {item : OrderItem}
    {p : Product} (rest : List OrderItem)
    (h : findProduct ps item.product_id = some p)
    (hq : ¬ p.stock_quantity < item.quantity.getD 1) :
    processItems ps (item :: rest) =
      (match processItems
          (replaceFirst ps item.product_id
            (decrementProduct p (item.quantity.getD 1))) rest with
       | (ps', Except.ok (lis, t)) =>
           (ps', Except.ok
             (({ product_id := item.product_id, name := p.name,
                 quantity := item.quantity.getD 1, price := p.price,
                 subtotal := p.price * ((item.quantity.getD 1 : Int) : Rat) }
               : LineItem) :: lis,
              p.price * ((item.quantity.getD 1 : Int) : Rat) + t))
       | (ps', Except.error e) => (ps', Except.error e)) := by
  simp [processItems, h, hq]

/-- Processing `pre ++ rest` where `pre` succeeds entirely: the loop
continues into `rest` from the state `pre` left behind, prepending
`pre`'s line items and adding its subtotal. -/
theorem processItems_append {pre : List OrderItem} {ps ps' : List Product}
    {lis : List LineItem} {t : Rat} (rest : List OrderItem)
    (h : processItems ps pre = (ps', Except.ok (lis, t))) :
    processItems ps (pre ++ rest) =
      (match processItems ps' rest with
       | (ps'', Except.ok (lis₂, t₂)) => (ps'', Except.ok (lis ++ lis₂, t + t₂))
       | (ps'', Except.error e) => (ps'', Except.error e)) := by
  induction pre generalizing ps lis t with
  | nil =>
      simp only [processItems] at h
      rw [Prod.mk.injEq] at h
      obtain ⟨rfl, h⟩ := h
      rw [Except.ok.injEq, Prod.mk.injEq] at h
      obtain ⟨rfl, rfl⟩ := h
      rw [List.nil_append]
      rcases h' : processItems ps rest with ⟨a, r⟩
      rcases r with e | ⟨l₂, t₂⟩ <;> simp [h']
  | cons item pre ih =>
      rcases hf : findProduct ps item.product_id with _ | p
      · rw [processItems_cons_notFound pre hf] at h
        exact absurd (congrArg Prod.snd h) (by simp)
      · by_cases hq : p.stock_quantity < item.quantity.getD 1
        · rw [processItems_cons_insufficient pre hf hq] at h
          exact absurd (congrArg Prod.snd h) (by simp)
        · rw [processItems_cons_ok pre hf hq] at h
          rcases h₂ : processItems
              (replaceFirst ps item.product_id
                (decrementProduct p (item.quantity.getD 1))) pre with ⟨ps₃, r⟩
          rw [h₂] at h
          rcases r with e | ⟨lis', t'⟩
          · exact absurd (congrArg Prod.snd h) (by simp)
          · rw [Prod.mk.injEq] at h
            obtain ⟨rfl, h⟩ := h
            rw [Except.ok.injEq, Prod.mk.injEq] at h
            obtain ⟨rfl, rfl⟩ := h
            rw [List.cons_append,
              processItems_cons_ok (pre ++ rest) hf hq, ih h₂]
            rcases h₃ : processItems ps₃ rest with ⟨a, r⟩
            rcases r with e | ⟨l₂, t₂⟩ <;> simp [h₃, add_assoc]

/-! ### Claim C1: mid-transaction failure keeps earlier decrements -/

/-- C1: if the user resolves, the items before some item all succeed
(leaving the products in state `ps'`), and that item then fails —
unresolved product id, or stock below the requested quantity — then
`create_order` fails with that item's typed error, the store keeps the
decrements of the earlier items (`products := ps'`) and no order is
appended (`orders` is untouched). -/
theorem create_order_no_rollback (db : Db) (oid uid : String) (user : User)
    (pre : List OrderItem) (item : OrderItem) (rest : List OrderItem)
    (ps' : List Product) (lis : List LineItem) (t : Rat) (e : ApiError)
    (hu : findUser db uid = some user)
    (hpre : processItems db.products pre = (ps', Except.ok (lis, t)))
    (hfail :
      (findProduct ps' item.product_id = none ∧
        e = ApiError.productNotFound item.product_id) ∨
      (∃ p, findProduct ps' item.product_id = some p ∧
        p.stock_quantity < item.quantity.getD 1 ∧
        e = ApiError.insufficientStock p.name)) :
    createOrder db oid ⟨uid, pre ++ item :: rest⟩ =
      ({ db with products := ps' }, Except.error e) := by
  have hstep : processItems ps' (item :: rest) = (ps', Except.error e) := by
    rcases hfail with ⟨hnone, rfl⟩ | ⟨p, hp, hq, rfl⟩
    · exact processItems_cons_notFound rest hnone
    · exact processItems_cons_insufficient rest hp hq
  simp only [createOrder, hu]
  rw [processItems_append (item :: rest) hpre, hstep]

theorem create_order_no_rollback_witness :
    processItems initDb.products [⟨"prod_003", some 100⟩] =
      ([headphonesProduct, coffeeMakerProduct,
        { yogaMatProduct with stock_quantity := 0, in_stock := false }],
       Except.ok
         ([{ product_id := "prod_003", name := "Yoga Mat", quantity := 100,
             price := 2999/100, subtotal := 2999 }], 2999)) ∧
    createOrder initDb "oW1"
        ⟨"user_001", [⟨"prod_003", some 100⟩, ⟨"prod_001", some 51⟩]⟩ =
      ({ initDb with products := [headphonesProduct, coffeeMakerProduct,
          { yogaMatProduct with stock_quantity := 0, in_stock := false }] },
       Except.error (ApiError.insufficientStock "Wireless Headphones")) :=
  ⟨by decide,
   create_order_no_rollback initDb "oW1" "user_001" aliceUser
     [⟨"prod_003", some 100⟩] ⟨"prod_001", some 51⟩ []
     [headphonesProduct, coffeeMakerProduct,
       { yogaMatProduct with stock_quantity := 0, in_stock := false }]
     [{ product_id := "prod_003", name := "Yoga Mat", quantity := 100,
        price := 2999/100, subtotal := 2999 }] 2999
     (ApiError.insufficientStock "Wireless Headphones")
     (by decide) (by decide)
     (Or.inr ⟨headphonesProduct, by decide, by decide, rfl⟩)⟩

/-! ### Claim C3: order total -/

/-- A successful pass of the item loop: the running total is exactly
the sum of `unit_price * quantity` over the recorded line items, and
the recorded quantities are the requested ones with `1` substituted
for an omitted quantity. -/
theorem processItems_ok_spec {items : List OrderItem} {ps ps' : List Product}
    {lis : List LineItem} {t : Rat}
    (h : processItems ps items = (ps', Except.ok (lis, t))) :
    t = (lis.map (fun li => li.price * (li.quantity : Rat))).sum ∧
    lis.map (fun li => li.quantity) =
      items.map (fun it => it.quantity.getD 1) := by
  induction items generalizing ps lis t with
  | nil =>
      simp only [processItems] at h
      rw [Prod.mk.injEq] at h
      obtain ⟨rfl, h⟩ := h
      rw [Except.ok.injEq, Prod.mk.injEq] at h
      obtain ⟨rfl, rfl⟩ := h
      simp
  | cons item rest ih =>
      rcases hf : findProduct ps item.product_id with _ | p
      · rw [processItems_cons_notFound rest hf] at h
        exact absurd (congrArg Prod.snd h) (by simp)
      · by_cases hq : p.stock_quantity < item.quantity.getD 1
        · rw [processItems_cons_insufficient rest hf hq] at h
          exact absurd (congrArg Prod.snd h) (by simp)
        · rw [processItems_cons_ok rest hf hq] at h
          rcases h₂ : processItems
              (replaceFirst ps item.product_id
                (decrementProduct p (item.quantity.getD 1))) rest with ⟨ps₃, r⟩
          rw [h₂] at h
          rcases r with e | ⟨lis', t'⟩
          · exact absurd (congrArg Prod.snd h) (by simp)
          · rw [Prod.mk.injEq] at h
            obtain ⟨rfl, h⟩ := h
            rw [Except.ok.injEq, Prod.mk.injEq] at h
            obtain ⟨rfl, rfl⟩ := h
            obtain ⟨ht, hmap⟩ := ih h₂
            subst ht
            simp [hmap]

/-- C3: every successful `create_order` returns an order whose
`total_amount` is the sum of `unit_price * quantity` over its line
items, each line item's `unit_price` being the product's price
captured at decrement time, and the quantities being the requested
ones with an omitted quantity taken as 1. -/
theorem order_total_correct (db : Db) (oid : String) (req : OrderRequest)
    (db' : Db) (order : Order)
    (h : createOrder db oid req = (db', Except.ok order)) :
    order.total_amount =
      (order.products.map (fun li => li.price * (li.quantity : Rat))).sum ∧
    order.products.map (fun li => li.quantity) =
      req.products.map (fun it => it.quantity.getD 1) := by
  rcases hu : findUser db req.user_id with _ | user
  · simp only [createOrder, hu] at h
    exact absurd (congrArg Prod.snd h) (by simp)
  · rcases hp : processItems db.products req.products with ⟨ps', r⟩
    rcases r with e | ⟨lis, t⟩
    · simp only [createOrder, hu, hp] at h
      exact absurd (congrArg Prod.snd h) (by simp)
    · simp only [createOrder, hu, hp] at h
      rw [Prod.mk.injEq, Except.ok.injEq] at h
      obtain ⟨-, rfl⟩ := h
      simpa using processItems_ok_spec hp

theorem order_total_correct_witness :
    ({ id := "oW3", user_id := "user_001",
       products :=
         [{ product_id := "prod_003", name := "Yoga Mat", quantity := 3,
            price := 2999/100, subtotal := 8997/100 },
          { product_id := "prod_001", name := "Wireless Headphones",
            quantity := 1, price := 19999/100, subtotal := 19999/100 }],
       total_amount := 7249/25, status := "confirmed" } : Order).total_amount =
      (([{ product_id := "prod_003", name := "Yoga Mat", quantity := 3,
           price := 2999/100, subtotal := 8997/100 },
         { product_id := "prod_001", name := "Wireless Headphones",
           quantity := 1, price := 19999/100, subtotal := 19999/100 }]
        : List LineItem).map (fun li => li.price * (li.quantity : Rat))).sum ∧
    ([{ product_id := "prod_003", name := "Yoga Mat", quantity := 3,
        price := 2999/100, subtotal := 8997/100 },
      { product_id := "prod_001", name := "Wireless Headphones",
        quantity := 1, price := 19999/100, subtotal := 19999/100 }]
      : List LineItem).map (fun li => li.quantity) =
      ([⟨"prod_003", some 3⟩, ⟨"prod_001", none⟩] : List OrderItem).map
        (fun it => it.quantity.getD 1) :=
  order_total_correct initDb "oW3"
    ⟨"user_001", [⟨"prod_003", some 3⟩, ⟨"prod_001", none⟩]⟩
    { initDb with
      products :=
        [{ headphonesProduct with stock_quantity := 49 }, coffeeMakerProduct,
         { yogaMatProduct with stock_quantity := 97 }],
      orders :=
        [{ id := "oW3", user_id := "user_001",
           products :=
             [{ product_id := "prod_003", name := "Yoga Mat", quantity := 3,
                price := 2999/100, subtotal := 8997/100 },
              { product_id := "prod_001", name := "Wireless Headphones",
                quantity := 1, price := 19999/100, subtotal := 19999/100 }],
           total_amount := 7249/25, status := "confirmed" }] }
    { id := "oW3", user_id := "user_001",
      products :=
        [{ product_id := "prod_003", name := "Yoga Mat", quantity := 3,
           price := 2999/100, subtotal := 8997/100 },
         { product_id := "prod_001", name := "Wireless Headphones",
           quantity := 1, price := 19999/100, subtotal := 19999/100 }],
      total_amount := 7249/25, status := "confirmed" }
    (by decide)

/-! ### Claim C2: the stock invariant -/

theorem mem_replaceFirst {ps : List Product} {pid : String} {p' x : Product}
    (hx : x ∈ replaceFirst ps pid p') : x = p' ∨ x ∈ ps := by
  induction ps with
  | nil => simp [replaceFirst] at hx
  | cons a ps ih =>
      rw [replaceFirst] at hx
      by_cases h : (a.id == pid) = true
      · rw [if_pos h] at hx
        rcases List.mem_cons.mp hx with rfl | hx
        · exact Or.inl rfl
        · exact Or.inr (List.mem_cons_of_mem _ hx)
      · rw [if_neg h] at hx
        rcases List.mem_cons.mp hx with rfl | hx
        · exact Or.inr (List.mem_cons_self _ _)
        · rcases ih hx with h' | h'
          · exact Or.inl h'
          · exact Or.inr (List.mem_cons_of_mem _ h')

/-- The decrement re-establishes the invariant provided the quantity
is non-negative and the stock check passed. -/
theorem stockInvariant_decrement {p : Product} {q : Int}
    (hp : stockInvariant p) (hq : 0 ≤ q) (hs : ¬ p.stock_quantity < q) :
    stockInvariant (decrementProduct p q) := by
  unfold stockInvariant decrementProduct at *
  push_neg at hs
  by_cases h0 : p.stock_quantity - q = 0
  · simp [h0]
  · simp only [if_neg h0]
    cases hb : p.in_stock <;> simp [hb] at hp ⊢ <;> omega

/-- The item loop preserves the stock invariant when every requested
quantity (after the default of 1) is non-negative — whether it
succeeds or stops at a typed error. -/
theorem processItems_invariant {items : List OrderItem} : ∀ {ps : List Product},
    (∀ p ∈ ps, stockInvariant p) →
    (∀ it ∈ items, 0 ≤ it.quantity.getD 1) →
    ∀ p ∈ (processItems ps items).1, stockInvariant p := by
  induction items with
  | nil =>
      intro ps hps _
      simpa [processItems] using hps
  | cons item rest ih =>
      intro ps hps hq
      rcases hf : findProduct ps item.product_id with _ | p
      · rw [processItems_cons_notFound rest hf]
        exact hps
      · by_cases hlt : p.stock_quantity < item.quantity.getD 1
        · rw [processItems_cons_insufficient rest hf hlt]
          exact hps
        · have hmem : p ∈ ps := List.mem_of_find?_eq_some hf
          have hinv : ∀ x ∈ replaceFirst ps item.product_id
              (decrementProduct p (item.quantity.getD 1)), stockInvariant x := by
            intro x hx
            rcases mem_replaceFirst hx with rfl | hx
            · exact stockInvariant_decrement (hps p hmem)
                (hq item (List.mem_cons_self _ _)) hlt
            · exact hps x hx
          have hrest : ∀ it ∈ rest, 0 ≤ it.quantity.getD 1 := fun it hit =>
            hq it (List.mem_cons_of_mem _ hit)
          have htail := ih hinv hrest
          rw [processItems_cons_ok rest hf hlt]
          rcases h₂ : processItems
              (replaceFirst ps item.product_id
                (decrementProduct p (item.quantity.getD 1))) rest with ⟨ps₃, r⟩
          rw [h₂] at htail
          rcases r with e | ⟨lis, t⟩ <;> simpa using htail

/-- C2 counterexample: the claim fails on the code in two of its own
cases.  A product built with the model's defaults has
`in_stock = true` while `stock_quantity = 0`; and a store state
reachable through the API (sell out `prod_002`, then order it with
quantity `-5`) holds a product with `in_stock = false` and
`stock_quantity = 5` — the decrement did not re-establish the
equivalence. -/
theorem stock_invariant_counterexample :
    (¬ stockInvariant ({ id := "p", name := "Widget", price := 1,
                           category := "Misc" } : Product)) ∧
    (∃ p ∈ ((createOrder
        ((createOrder initDb "o1" ⟨"user_001", [⟨"prod_002", some 25⟩]⟩).1)
        "o2" ⟨"user_001", [⟨"prod_002", some (-5)⟩]⟩).1).products,
      ¬ stockInvariant p) := by
  constructor
  · decide
  · exact ⟨{ coffeeMakerProduct with stock_quantity := 5, in_stock := false },
      by decide, by decide⟩

/-- C2 (amended): the equivalence `in_stock = (stock_quantity > 0)`
holds for every seeded product, and it is preserved by every
`create_order` call all of whose item quantities (after the default
of 1) are non-negative; it does not extend to default-constructed
products or to negative-quantity orders. -/
theorem stock_invariant_preserved :
    (∀ p ∈ initDb.products, stockInvariant p) ∧
    ∀ (db : Db) (oid : String) (req : OrderRequest),
      (∀ p ∈ db.products, stockInvariant p) →
      (∀ it ∈ req.products, 0 ≤ it.quantity.getD 1) →
      ∀ p ∈ (createOrder db oid req).1.products, stockInvariant p := by
  refine ⟨by decide, ?_⟩
  intro db oid req hdb hq
  rcases hu : findUser db req.user_id with _ | user
  · simpa [createOrder, hu] using hdb
  · have hitems := processItems_invariant hdb hq
    rcases hp : processItems db.products req.products with ⟨ps', r⟩
    rw [hp] at hitems
    rcases r with e | ⟨lis, t⟩ <;> simpa [createOrder, hu, hp] using hitems

theorem stock_invariant_preserved_witness :
    stockInvariant
      ({ id := "prod_003", name := "Yoga Mat",
         description := some "Eco-friendly non-slip yoga mat",
         price := 2999/100, category := "Fitness", in_stock := true,
         stock_quantity := 97, tags := ["fitness", "yoga", "exercise"] } : Product) :=
  stock_invariant_preserved.2 initDb "oW2" ⟨"user_001", [⟨"prod_003", some 3⟩]⟩
    (by decide) (by decide) _ (by decide)

/-! ### Claim C10: no positivity check on quantities -/

/-- C10: `create_order` never validates that a quantity is positive.
For an item whose quantity is zero or negative, the
`stock_quantity < quantity` check cannot trigger as long as
`stock_quantity ≥ quantity`, the call succeeds with no typed error for
that item, a negative quantity *increases* the product's stock by
`|quantity|`, and the line's contribution to the total is
`-(price * |quantity|)`. -/
theorem create_order_no_positivity_check (db : Db) (oid uid : String)
    (user : User) (pid : String) (p : Product) (q : Int)
    (hu : findUser db uid = some user)
    (hp : findProduct db.products pid = some p)
    (hq : q ≤ 0) (hs : q ≤ p.stock_quantity) :
    ¬ p.stock_quantity < q ∧
    ∃ order : Order,
      createOrder db oid ⟨uid, [⟨pid, some q⟩]⟩ =
        ({ db with
            products := replaceFirst db.products pid (decrementProduct p q),
            orders := db.orders ++ [order] },
         Except.ok order) ∧
      (decrementProduct p q).stock_quantity =
        p.stock_quantity + (q.natAbs : Int) ∧
      order.total_amount = -(p.price * (q.natAbs : Rat)) := by
  have hns : ¬ p.stock_quantity < q := not_lt.mpr hs
  have habs : (q.natAbs : Int) = -q := Int.ofNat_natAbs_of_nonpos hq
  refine ⟨hns,
    ⟨{ id := oid, user_id := user.id,
       products := [⟨pid, p.name, q, p.price, p.price * (q : Rat)⟩],
       total_amount := p.price * (q : Rat) + 0, status := "confirmed" },
     ?_, ?_, ?_⟩⟩
  · simp only [createOrder, hu]
    rw [processItems_cons_ok [] hp hns]
    rfl
  · simp only [decrementProduct]
    omega
  · show p.price * (q : Rat) + 0 = -(p.price * (q.natAbs : Rat))
    have hcast : ((q.natAbs : Nat) : Rat) = -(q : Rat) :=
      (Int.cast_natCast q.natAbs).symm.trans
        ((congrArg (fun z : Int => (z : Rat)) habs).trans (Int.cast_neg q))
    rw [add_zero, hcast]
    ring

theorem create_order_no_positivity_check_witness :
    ¬ headphonesProduct.stock_quantity < (-5 : Int) ∧
    ∃ order : Order,
      createOrder initDb "oW10" ⟨"user_001", [⟨"prod_001", some (-5)⟩]⟩ =
        ({ initDb with
            products := replaceFirst initDb.products "prod_001"
              (decrementProduct headphonesProduct (-5)),
            orders := [order] },
         Except.ok order) ∧
      (decrementProduct headphonesProduct (-5)).stock_quantity =
        headphonesProduct.stock_quantity + (((-5 : Int).natAbs : Nat) : Int) ∧
      order.total_amount =
        -(headphonesProduct.price * (((-5 : Int).natAbs : Nat) : Rat)) :=
  create_order_no_positivity_check initDb "oW10" "user_001" aliceUser
    "prod_001" headphonesProduct (-5) (by decide) (by decide) (by decide)
    (by decide)

/-! ### Claim C6: the product filter -/

theorem filter_stage_cat (cat : Option String) (l : List Product) :
    (match cat with
     | some c =>
         if c = "" then l
         else l.filter (fun p => strLower p.category == strLower c)
     | none => l) = l.filter (fun p => catOk cat p) := by
  rcases cat with _ | c
  · show l = l.filter (fun p => catOk none p)
    simp [catOk]
  · show (if c = "" then l
        else l.filter (fun p => strLower p.category == strLower c)) =
      l.filter (fun p => catOk (some c) p)
    by_cases hc : c = ""
    · subst hc
      simp [catOk]
    · rw [if_neg hc]
      apply List.filter_congr
      intro p _
      have hc' : (c == "") = false := by simpa using hc
      simp [catOk, hc']

theorem filter_stage_min (mn : Option Rat) (l : List Product) :
    (match mn with
     | some m => l.filter (fun p => decide (m ≤ p.price))
     | none => l) = l.filter (fun p => minOk mn p) := by
  rcases mn with _ | m
  · show l = l.filter (fun p => minOk none p)
    simp [minOk]
  · show l.filter (fun p => decide (m ≤ p.price)) =
      l.filter (fun p => minOk (some m) p)
    simp [minOk]

theorem filter_stage_max (mx : Option Rat) (l : List Product) :
    (match mx with
     | some m => l.filter (fun p => decide (p.price ≤ m))
     | none => l) = l.filter (fun p => maxOk mx p) := by
  rcases mx with _ | m
  · show l = l.filter (fun p => maxOk none p)
    simp [maxOk]
  · show l.filter (fun p => decide (p.price ≤ m)) =
      l.filter (fun p => maxOk (some m) p)
    simp [maxOk]

theorem filter_stage_stock (b : Bool) (l : List Product) :
    (if b then l.filter (fun p => p.in_stock && decide (0 < p.stock_quantity))
     else l) = l.filter (fun p => stockOk b p) := by
  cases b <;> simp [stockOk]

theorem filter_stage_tag (tg : Option String) (l : List Product) :
    (match tg with
     | some t =>
         if t = "" then l
         else l.filter (fun p => (p.tags.map strLower).contains (strLower t))
     | none => l) = l.filter (fun p => tagOk tg p) := by
  rcases tg with _ | t
  · show l = l.filter (fun p => tagOk none p)
    simp [tagOk]
  · show (if t = "" then l
        else l.filter (fun p => (p.tags.map strLower).contains (strLower t))) =
      l.filter (fun p => tagOk (some t) p)
    by_cases ht : t = ""
    · subst ht
      simp [tagOk]
    · rw [if_neg ht]
      apply List.filter_congr
      intro p _
      have ht' : (t == "") = false := by simpa using ht
      simp [tagOk, ht']

/-- C6 counterexample: with a supplied (but empty) category string the
code skips the category predicate entirely (Python truthiness) and
returns all three seeded products, while the conjunction of supplied
predicates — category equals `""` case-insensitively — matches no
stored product. -/
theorem get_products_counterexample :
    getProducts initDb ⟨some "", none, none, true, none⟩ ≠
      initDb.products.filter
        (productMatchesSpec ⟨some "", none, none, true, none⟩) := by
  decide

/-- C6 (amended): `get_products` returns exactly the stored products,
in insertion order, satisfying the conjunction of the supplied
predicates — case-insensitive category equality, `min_price ≤ price`,
`price ≤ max_price`, `in_stock ∧ stock_quantity > 0` unless disabled,
case-insensitive tag membership — with absent predicates imposing no
constraint, and with a supplied empty-string category or tag also
imposing no constraint (Python truthiness). -/
theorem get_products_eq_filter (db : Db) (f : ProductFilter) :
    getProducts db f = db.products.filter (fun p => productMatchesCode f p) := by
  simp only [getProducts]
  rw [filter_stage_cat f.category db.products, filter_stage_min,
    filter_stage_max, filter_stage_stock, filter_stage_tag]
  simp only [List.filter_filter]
  apply List.filter_congr
  intro p _
  simp only [productMatchesCode]
  cases catOk f.category p <;> cases minOk f.min_price p <;>
    cases maxOk f.max_price p <;> cases stockOk f.in_stock p <;>
    cases tagOk f.tag p <;> rfl

end ApiUsage
